import Mathlib

/-!
Shallow embedding of `src/SerialStreamBuf.cc` (LibSerial's stream-buffer
implementation).  OS interactions (`::open`, `::close`, `read`, `fcntl`,
`tcgetattr`, `tcsetattr`, `tcflush`) are modelled by explicit parameters
giving the outcome of each call: a `read` is a `ReadResult`, a `tcsetattr`
is an `accept : Termios → Option Termios` function describing what the
device actually stores (or `none` when the call fails), and boolean
parameters give the success of `fcntl`/`tcflush`/`::close` calls.

The terminal attribute block `struct termios` is embedded as a structure
whose fields are the individual flags and control characters the source
manipulates (`IXON`, `IXOFF`, `ISTRIP`, `CRTSCTS`, `CSTOPB`, `PARENB`,
`PARODD`, the `CSIZE` field contents, the speeds, and the `VMIN`, `VTIME`,
`VSTART`, `VSTOP` control characters); a C bit operation such as
`c_iflag |= ISTRIP` becomes the corresponding field update.

`streambuf::int_type` is embedded as `Int` with `traits_type::eof() = -1`;
`to_char_type` truncates to a byte (`% 256`) and `to_int_type` of a byte
is the byte value itself.
-/

namespace LibSerial

/-- Flow-control modes of `SerialStreamBuf::FlowControlEnum`. -/
inductive FlowControlEnum where
  | FLOW_CONTROL_HARD : FlowControlEnum
  | FLOW_CONTROL_SOFT : FlowControlEnum
  | FLOW_CONTROL_NONE : FlowControlEnum
  | FLOW_CONTROL_INVALID : FlowControlEnum
  deriving DecidableEq, Repr

/-- Parity modes of `SerialStreamBuf::ParityEnum`. -/
inductive ParityEnum where
  | PARITY_EVEN : ParityEnum
  | PARITY_ODD : ParityEnum
  | PARITY_NONE : ParityEnum
  | PARITY_INVALID : ParityEnum
  deriving DecidableEq, Repr

/-- Character sizes of `LibSerial::CharSize`. -/
inductive CharSize where
  | CHAR_SIZE_5 : CharSize
  | CHAR_SIZE_6 : CharSize
  | CHAR_SIZE_7 : CharSize
  | CHAR_SIZE_8 : CharSize
  | CHAR_SIZE_INVALID : CharSize
  deriving DecidableEq, Repr

/-- Baud rates of `LibSerial::BaudRate` (the values supported by the
`SetBaudRate` switch, plus the invalid sentinel). -/
inductive BaudRate where
  | BAUD_50 : BaudRate
  | BAUD_75 : BaudRate
  | BAUD_110 : BaudRate
  | BAUD_134 : BaudRate
  | BAUD_150 : BaudRate
  | BAUD_200 : BaudRate
  | BAUD_300 : BaudRate
  | BAUD_600 : BaudRate
  | BAUD_1200 : BaudRate
  | BAUD_1800 : BaudRate
  | BAUD_2400 : BaudRate
  | BAUD_4800 : BaudRate
  | BAUD_9600 : BaudRate
  | BAUD_19200 : BaudRate
  | BAUD_38400 : BaudRate
  | BAUD_57600 : BaudRate
  | BAUD_115200 : BaudRate
  | BAUD_INVALID : BaudRate
  deriving DecidableEq, Repr

/-- The `speed_t` code of each baud rate (the Linux `B50` … `B115200`
constants, which are the numeric values of the C++ enum members). -/
def BaudRate.toSpeed : BaudRate → Nat
  | .BAUD_50 => 1
  | .BAUD_75 => 2
  | .BAUD_110 => 3
  | .BAUD_134 => 4
  | .BAUD_150 => 5
  | .BAUD_200 => 6
  | .BAUD_300 => 7
  | .BAUD_600 => 8
  | .BAUD_1200 => 9
  | .BAUD_1800 => 10
  | .BAUD_2400 => 11
  | .BAUD_4800 => 12
  | .BAUD_9600 => 13
  | .BAUD_19200 => 14
  | .BAUD_38400 => 15
  | .BAUD_57600 => 4097
  | .BAUD_115200 => 4098
  | .BAUD_INVALID => 0

/-- The inverse mapping used by `GetBaudRate`: decode a `speed_t` code. -/
def BaudRate.ofSpeed (s : Nat) : BaudRate :=
  if s = 1 then .BAUD_50
  else if s = 2 then .BAUD_75
  else if s = 3 then .BAUD_110
  else if s = 4 then .BAUD_134
  else if s = 5 then .BAUD_150
  else if s = 6 then .BAUD_200
  else if s = 7 then .BAUD_300
  else if s = 8 then .BAUD_600
  else if s = 9 then .BAUD_1200
  else if s = 10 then .BAUD_1800
  else if s = 11 then .BAUD_2400
  else if s = 12 then .BAUD_4800
  else if s = 13 then .BAUD_9600
  else if s = 14 then .BAUD_19200
  else if s = 15 then .BAUD_38400
  else if s = 4097 then .BAUD_57600
  else if s = 4098 then .BAUD_115200
  else .BAUD_INVALID

/-- The `CSIZE`-field bit pattern of each character size (Linux values
`CS5 = 0x00`, `CS6 = 0x10`, `CS7 = 0x20`, `CS8 = 0x30`). -/
def CharSize.val : CharSize → Nat
  | .CHAR_SIZE_5 => 0x00
  | .CHAR_SIZE_6 => 0x10
  | .CHAR_SIZE_7 => 0x20
  | .CHAR_SIZE_8 => 0x30
  | .CHAR_SIZE_INVALID => 0x40

/-- The XON start character `CTRL_Q` (0x11, `^Q`). -/
def CTRL_Q : Nat := 0x11

/-- The XOFF stop character `CTRL_S` (0x13, `^S`). -/
def CTRL_S : Nat := 0x13

/-- `_POSIX_VDISABLE` (0 on Linux). -/
def POSIX_VDISABLE : Nat := 0

/-- Embedding of a `struct termios` snapshot: the fields the source reads
and writes.  `csize` holds the contents of the `CSIZE` bit-field of
`c_cflag`; the `Bool` fields are the individual flag bits; `vmin`,
`vtime`, `vstart`, `vstop` are the corresponding `c_cc` entries. -/
structure Termios where
  ispeed : Nat
  ospeed : Nat
  csize : Nat
  istrip : Bool
  ixon : Bool
  ixoff : Bool
  crtscts : Bool
  cstopb : Bool
  parenb : Bool
  parodd : Bool
  vmin : Nat
  vtime : Nat
  vstart : Nat
  vstop : Nat
  deriving DecidableEq, Repr

/-- State of a `SerialStreamBuf::Implementation`: the putback cell
(`mPutbackChar`, `mPutbackAvailable`) and the file descriptor
(`mFileDescriptor`, `-1` when no port is open). -/
structure Port where
  mFileDescriptor : Int
  mPutbackChar : Nat
  mPutbackAvailable : Bool
  deriving DecidableEq, Repr

/-- `SerialStreamBuf::is_open`: true iff the stored descriptor is not -1. -/
def is_open (p : Port) : Bool :=
  p.mFileDescriptor != -1

/-- `SerialStreamBuf::close`.  `osCloseOk` is the outcome of the
`::close` system call.  Returns the C++ return value as a `Bool`
(`false` for the null pointer, `true` for `this`) paired with the new
state.  When the port is not open, or when `::close` fails, the state is
unchanged — in particular a failed `::close` leaves `mFileDescriptor`
set. -/
def close (p : Port) (osCloseOk : Bool) : Bool × Port :=
  if is_open p = false then (false, p)
  else if osCloseOk = false then (false, p)
  else (true, { p with mFileDescriptor := -1 })

/-- `SerialStreamBuf::open` (named `openPort` because `open` is reserved
in Lean).  `modeValid` is whether the `ios_base::openmode` argument is
one of the three accepted combinations; `osOpenFd` is the result of the
`::open` system call (`none` for -1, `some fd` for a fresh descriptor);
`initOk` is the outcome of `InitializeSerialPort`.  Returns the C++
return value as a `Bool` (`false` = null pointer) with the new state.
Note that when `::open` succeeds but `InitializeSerialPort` fails, the
function returns failure with `mFileDescriptor` still set to the new
descriptor. -/
def openPort (p : Port) (modeValid : Bool) (osOpenFd : Option Nat)
    (initOk : Bool) : Bool × Port :=
  if is_open p = true then (false, p)
  else if modeValid = false then (false, p)
  else
    match osOpenFd with
    | none => (false, p)
    | some fd =>
      let p1 : Port := { p with mFileDescriptor := (fd : Int) }
      if initOk then (true, p1) else (false, p1)

/-- Outcome of a `read(fd, buf, count)` call: `err` for -1, `ok bs` for a
successful call delivering the bytes `bs` (with `bs = []` meaning the
call returned 0, i.e. end of file). -/
inductive ReadResult where
  | err : ReadResult
  | ok : List Nat → ReadResult
  deriving DecidableEq, Repr

/-- `SerialStreamBuf::Implementation::pbackfail`.  `c` is the
`int_type` argument; `traits_type::eof()` is -1, `to_char_type`
truncates to a byte, and `not_eof c = c` for any `c ≠ -1`. -/
def pbackfail (p : Port) (c : Int) : Int × Port :=
  if p.mFileDescriptor = -1 then (-1, p)
  else if p.mPutbackAvailable = true then (-1, p)
  else if c = -1 then (-1, p)
  else (c, { p with mPutbackChar := (c % 256).toNat, mPutbackAvailable := true })

/-- `SerialStreamBuf::Implementation::underflow`.  `osRead1` is the
result of the one-byte `read` call, performed only when no putback
character is available (`none` abbreviates both the -1 and the 0 return,
which the source treats identically; `some b` is a successfully read
byte).  Returns `to_int_type` of the character delivered, or -1 (eof). -/
def underflow (p : Port) (osRead1 : Option Nat) : Int × Port :=
  if p.mFileDescriptor = -1 then (-1, p)
  else if p.mPutbackAvailable = true then ((p.mPutbackChar : Int), p)
  else
    match osRead1 with
    | some b => ((b : Int), { p with mPutbackChar := b, mPutbackAvailable := true })
    | none => (-1, p)

/-- `SerialStreamBuf::Implementation::showmanyc`.  `fcntlSetOk` is the
outcome of the `fcntl` call switching the descriptor to non-blocking,
`osRead1` the result of the probe `read(fd, &mPutbackChar, 1)` (`some b`
when it returns 1 having read byte `b`, `none` when it returns 0 or -1),
and `fcntlRestoreOk` the outcome of the `fcntl` call restoring the
original flags.  Returns the `streamsize` result with the new state. -/
def showmanyc (p : Port) (fcntlSetOk : Bool) (osRead1 : Option Nat)
    (fcntlRestoreOk : Bool) : Int × Port :=
  if p.mFileDescriptor = -1 then (-1, p)
  else if p.mPutbackAvailable = true then (1, p)
  else if fcntlSetOk = false then (-1, p)
  else
    match osRead1 with
    | some b =>
      let p1 : Port := { p with mPutbackChar := b, mPutbackAvailable := true }
      if fcntlRestoreOk then (1, p1) else (-1, p1)
    | none =>
      if fcntlRestoreOk then (0, p) else (-1, p)

/-- `SerialStreamBuf::Implementation::xsgetn`.  `osRead` maps the count
passed to the (at most one) `read` call to its result.  The value is
`(returned streamsize, new state, bytes delivered into the target array
in order, counts requested from the OS read call)`. -/
def xsgetn (p : Port) (osRead : Nat → ReadResult) (n : Int) :
    Int × Port × List Nat × List Nat :=
  if p.mFileDescriptor = -1 ∨ n ≤ 0 then (0, p, [], [])
  else if p.mPutbackAvailable = true then
    let p1 : Port := { p with mPutbackAvailable := false }
    if 1 < n then
      match osRead (n - 1).toNat with
      | ReadResult.err => (0, p1, [p.mPutbackChar], [(n - 1).toNat])
      | ReadResult.ok bs =>
        ((1 : Int) + bs.length, p1, p.mPutbackChar :: bs, [(n - 1).toNat])
    else (1, p1, [p.mPutbackChar], [])
  else
    match osRead n.toNat with
    | ReadResult.err => (0, p, [], [n.toNat])
    | ReadResult.ok bs =>
      (if bs.length = 0 then 0 else (bs.length : Int), p, bs, [n.toNat])

/-- `SerialStreamBuf::Implementation::GetBaudRate`: re-reads the
attributes and decodes the speed; `BAUD_INVALID` when the port is closed
or the two speeds disagree. -/
def GetBaudRate (fd : Int) (t : Termios) : BaudRate :=
  if fd = -1 then BaudRate.BAUD_INVALID
  else if t.ispeed ≠ t.ospeed then BaudRate.BAUD_INVALID
  else BaudRate.ofSpeed t.ispeed

/-- `SerialStreamBuf::Implementation::SetBaudRate`.  `accept` is the
device's `tcsetattr` behaviour: given the requested attribute block it
yields the block the device actually stores, or `none` when the call
fails.  For a supported rate the source sets both speeds, writes back,
and returns `GetBaudRate()` on the resulting state. -/
def SetBaudRate (fd : Int) (t : Termios) (accept : Termios → Option Termios)
    (baud_rate : BaudRate) : BaudRate × Termios :=
  if fd = -1 then (BaudRate.BAUD_INVALID, t)
  else if baud_rate = BaudRate.BAUD_INVALID then (BaudRate.BAUD_INVALID, t)
  else
    match accept { t with ispeed := baud_rate.toSpeed, ospeed := baud_rate.toSpeed } with
    | none => (BaudRate.BAUD_INVALID, t)
    | some t1 => (GetBaudRate fd t1, t1)

/-- `SerialStreamBuf::Implementation::GetCharSize`: decodes the `CSIZE`
field of the re-read attributes. -/
def GetCharSize (fd : Int) (t : Termios) : CharSize :=
  if fd = -1 then CharSize.CHAR_SIZE_INVALID
  else if t.csize = 0x00 then CharSize.CHAR_SIZE_5
  else if t.csize = 0x10 then CharSize.CHAR_SIZE_6
  else if t.csize = 0x20 then CharSize.CHAR_SIZE_7
  else if t.csize = 0x30 then CharSize.CHAR_SIZE_8
  else CharSize.CHAR_SIZE_INVALID

/-- The attribute update performed by `SetCharSize` for a supported
size: `c_iflag` gets `ISTRIP` cleared for 8-bit characters and set for
smaller ones, and the `CSIZE` field is cleared and then set to the
requested size (so it ends up exactly `char_size.val`). -/
def applyCharSize (t : Termios) (char_size : CharSize) : Termios :=
  if char_size = CharSize.CHAR_SIZE_8 then
    { t with istrip := false, csize := char_size.val }
  else
    { t with istrip := true, csize := char_size.val }

/-- `SerialStreamBuf::Implementation::SetCharSize`: for a supported size
apply `applyCharSize`, write back, and return `GetCharSize()` on the
resulting state; for the invalid sentinel return it without writing. -/
def SetCharSize (fd : Int) (t : Termios) (accept : Termios → Option Termios)
    (char_size : CharSize) : CharSize × Termios :=
  if fd = -1 then (CharSize.CHAR_SIZE_INVALID, t)
  else if char_size = CharSize.CHAR_SIZE_INVALID then (CharSize.CHAR_SIZE_INVALID, t)
  else
    match accept (applyCharSize t char_size) with
    | none => (CharSize.CHAR_SIZE_INVALID, t)
    | some t1 => (GetCharSize fd t1, t1)

/-- `SerialStreamBuf::Implementation::GetNumOfStopBits`: 2 iff `CSTOPB`
is set; 0 on a closed port. -/
def GetNumOfStopBits (fd : Int) (t : Termios) : Int :=
  if fd = -1 then 0
  else if t.cstopb then 2 else 1

/-- `SerialStreamBuf::Implementation::SetNumOfStopBits`: 1 clears
`CSTOPB`, 2 sets it, anything else returns 0; on success it returns
`GetNumOfStopBits()` on the resulting state. -/
def SetNumOfStopBits (fd : Int) (t : Termios) (accept : Termios → Option Termios)
    (stop_bits : Int) : Int × Termios :=
  if fd = -1 then (0, t)
  else if stop_bits = 1 then
    match accept { t with cstopb := false } with
    | none => (0, t)
    | some t1 => (GetNumOfStopBits fd t1, t1)
  else if stop_bits = 2 then
    match accept { t with cstopb := true } with
    | none => (0, t)
    | some t1 => (GetNumOfStopBits fd t1, t1)
  else (0, t)

/-- `SerialStreamBuf::Implementation::GetParity`: `PARENB` is
authoritative; with parity enabled `PARODD` selects odd versus even. -/
def GetParity (fd : Int) (t : Termios) : ParityEnum :=
  if fd = -1 then ParityEnum.PARITY_INVALID
  else if t.parenb then
    (if t.parodd then ParityEnum.PARITY_ODD else ParityEnum.PARITY_EVEN)
  else ParityEnum.PARITY_NONE

/-- The attribute update performed by `SetParity` for a supported
parity value. -/
def applyParity (t : Termios) (parity : ParityEnum) : Termios :=
  match parity with
  | ParityEnum.PARITY_EVEN => { t with parenb := true, parodd := false }
  | ParityEnum.PARITY_ODD => { t with parenb := true, parodd := true }
  | ParityEnum.PARITY_NONE => { t with parenb := false }
  | ParityEnum.PARITY_INVALID => t

/-- `SerialStreamBuf::Implementation::SetParity`: for a supported value
apply `applyParity`, write back, and return `GetParity()` on the
resulting state; the default switch case returns the invalid sentinel
without writing. -/
def SetParity (fd : Int) (t : Termios) (accept : Termios → Option Termios)
    (parity : ParityEnum) : ParityEnum × Termios :=
  if fd = -1 then (ParityEnum.PARITY_INVALID, t)
  else if parity = ParityEnum.PARITY_INVALID then (ParityEnum.PARITY_INVALID, t)
  else
    match accept (applyParity t parity) with
    | none => (ParityEnum.PARITY_INVALID, t)
    | some t1 => (GetParity fd t1, t1)

/-- `SerialStreamBuf::Implementation::GetFlowControl`: software flow
control iff both `IXON` and `IXOFF` are set with `VSTART`/`VSTOP` equal
to `^Q`/`^S`; with neither set, `CRTSCTS` separates hardware flow
control from none; every other combination is invalid. -/
def GetFlowControl (fd : Int) (t : Termios) : FlowControlEnum :=
  if fd = -1 then FlowControlEnum.FLOW_CONTROL_INVALID
  else if t.ixon = true ∧ t.ixoff = true ∧ t.vstart = CTRL_Q ∧ t.vstop = CTRL_S then
    FlowControlEnum.FLOW_CONTROL_SOFT
  else if ¬ (t.ixon = true ∨ t.ixoff = true) then
    (if t.crtscts then FlowControlEnum.FLOW_CONTROL_HARD
     else FlowControlEnum.FLOW_CONTROL_NONE)
  else FlowControlEnum.FLOW_CONTROL_INVALID

/-- The attribute update performed by `SetFlowControl`: hard disables
XON/XOFF and sets `CRTSCTS` with both flow characters disabled; soft
enables XON/XOFF with `^Q`/`^S` and clears `CRTSCTS`; every other
requested value (including the invalid sentinel — the source has no
default rejection here) disables both mechanisms. -/
def applyFlowControl (t : Termios) (flow_c : FlowControlEnum) : Termios :=
  if flow_c = FlowControlEnum.FLOW_CONTROL_HARD then
    { t with ixon := false, ixoff := false, crtscts := true,
             vstart := POSIX_VDISABLE, vstop := POSIX_VDISABLE }
  else if flow_c = FlowControlEnum.FLOW_CONTROL_SOFT then
    { t with ixon := true, ixoff := true, crtscts := false,
             vstart := CTRL_Q, vstop := CTRL_S }
  else
    { t with ixon := false, ixoff := false, crtscts := false }

/-- `SerialStreamBuf::Implementation::SetFlowControl`.  `flushOk` is the
outcome of the initial `tcflush`; on success the function applies
`applyFlowControl`, writes back, and returns `GetFlowControl()` on the
resulting state. -/
def SetFlowControl (fd : Int) (t : Termios) (flushOk : Bool)
    (accept : Termios → Option Termios) (flow_c : FlowControlEnum) :
    FlowControlEnum × Termios :=
  if fd = -1 then (FlowControlEnum.FLOW_CONTROL_INVALID, t)
  else if flushOk = false then (FlowControlEnum.FLOW_CONTROL_INVALID, t)
  else
    match accept (applyFlowControl t flow_c) with
    | none => (FlowControlEnum.FLOW_CONTROL_INVALID, t)
    | some t1 => (GetFlowControl fd t1, t1)

/-- `SerialStreamBuf::Implementation::GetVMin`: the `VMIN` control
character of the re-read attributes; -1 on a closed port. -/
def GetVMin (fd : Int) (t : Termios) : Int :=
  if fd = -1 then -1 else (t.vmin : Int)

/-- `SerialStreamBuf::Implementation::SetVMin`: range-checks 0–255,
stores the value in `VMIN`, writes back — and returns the requested
`vmin` argument itself, not a re-read of the device attributes. -/
def SetVMin (fd : Int) (t : Termios) (accept : Termios → Option Termios)
    (vmin : Int) : Int × Termios :=
  if fd = -1 then (-1, t)
  else if vmin < 0 ∨ 255 < vmin then (-1, t)
  else
    match accept { t with vmin := vmin.toNat } with
    | none => (-1, t)
    | some t1 => (vmin, t1)

/-- `SerialStreamBuf::Implementation::GetVTime`: the `VTIME` control
character of the re-read attributes; -1 on a closed port. -/
def GetVTime (fd : Int) (t : Termios) : Int :=
  if fd = -1 then -1 else (t.vtime : Int)

/-- `SerialStreamBuf::Implementation::SetVTime`: range-checks 0–255,
stores the value in `VTIME`, writes back — and returns the requested
`vtime` argument itself, not a re-read of the device attributes. -/
def SetVTime (fd : Int) (t : Termios) (accept : Termios → Option Termios)
    (vtime : Int) : Int × Termios :=
  if fd = -1 then (-1, t)
  else if vtime < 0 ∨ 255 < vtime then (-1, t)
  else
    match accept { t with vtime := vtime.toNat } with
    | none => (-1, t)
    | some t1 => (vtime, t1)

/-- C1: Putback round-trip.  On an open port with no putback byte
pending, `pbackfail b` for any byte `b < 256` succeeds, returning `b`
and storing it in the putback cell; a subsequent `underflow` returns `b`
(whatever the OS read would have yielded) without changing the state; a
second `pbackfail` with any argument while the byte is still pending
fails with eof (-1) and leaves the stored byte unchanged; and
`pbackfail` of the eof marker itself fails with the state unchanged. -/
theorem C1_putback_roundtrip (p : Port) (b : Nat)
    (hfd : p.mFileDescriptor ≠ -1)
    (hpb : p.mPutbackAvailable = false)
    (hb : b < 256) :
    pbackfail p (b : Int) =
      ((b : Int), { p with mPutbackChar := b, mPutbackAvailable := true }) ∧
    (∀ osRead1 : Option Nat,
      underflow { p with mPutbackChar := b, mPutbackAvailable := true } osRead1 =
        ((b : Int), { p with mPutbackChar := b, mPutbackAvailable := true })) ∧
    (∀ c : Int,
      pbackfail { p with mPutbackChar := b, mPutbackAvailable := true } c =
        (-1, { p with mPutbackChar := b, mPutbackAvailable := true })) ∧
    pbackfail p (-1) = (-1, p) := by
  have hb' : ((b : Int) % 256).toNat = b := by omega
  have hbe : (b : Int) ≠ -1 := by omega
  refine ⟨?_, ?_, ?_, ?_⟩
  · simp [pbackfail, hfd, hpb, hbe, hb']
  · intro osRead1
    simp [underflow, hfd]
  · intro c
    simp [pbackfail, hfd]
  · simp [pbackfail, hfd, hpb]

/-- Witness for C1 at the concrete open port with descriptor 3 and the
byte 65. -/
theorem C1_putback_roundtrip_witness :
    pbackfail { mFileDescriptor := 3, mPutbackChar := 0, mPutbackAvailable := false } 65 =
      (65, { mFileDescriptor := 3, mPutbackChar := 65, mPutbackAvailable := true }) ∧
    underflow { mFileDescriptor := 3, mPutbackChar := 65, mPutbackAvailable := true }
        (some 7) =
      (65, { mFileDescriptor := 3, mPutbackChar := 65, mPutbackAvailable := true }) ∧
    pbackfail { mFileDescriptor := 3, mPutbackChar := 65, mPutbackAvailable := true } 66 =
      (-1, { mFileDescriptor := 3, mPutbackChar := 65, mPutbackAvailable := true }) ∧
    pbackfail { mFileDescriptor := 3, mPutbackChar := 0, mPutbackAvailable := false } (-1) =
      (-1, { mFileDescriptor := 3, mPutbackChar := 0, mPutbackAvailable := false }) := by
  have h := C1_putback_roundtrip
    { mFileDescriptor := 3, mPutbackChar := 0, mPutbackAvailable := false } 65
    (by decide) rfl (by decide)
  exact ⟨h.1, h.2.1 (some 7), h.2.2.1 66, h.2.2.2⟩

/-- C7: calling `open` while the port is already open fails, returning
the null pointer, and leaves the file descriptor, the putback byte and
the putback flag exactly as they were, for every mode validity, OS open
outcome and initialization outcome. -/
theorem C7_open_already_open (p : Port) (modeValid : Bool)
    (osOpenFd : Option Nat) (initOk : Bool)
    (h : is_open p = true) :
    openPort p modeValid osOpenFd initOk = (false, p) := by
  simp [openPort, h]

/-- Witness for C7: a second open on a port with descriptor 3 fails and
changes nothing. -/
theorem C7_open_already_open_witness :
    openPort { mFileDescriptor := 3, mPutbackChar := 9, mPutbackAvailable := true }
        true (some 5) true =
      (false, { mFileDescriptor := 3, mPutbackChar := 9, mPutbackAvailable := true }) :=
  C7_open_already_open
    { mFileDescriptor := 3, mPutbackChar := 9, mPutbackAvailable := true }
    true (some 5) true (by decide)

/-- C10: `xsgetn` is not atomic on error.  For every open port with a
putback byte pending and every `n > 1`, if the OS read fails, `xsgetn`
returns 0, yet the putback flag has been cleared and the putback byte
was already written into the first slot of the target array, so the byte
is no longer retrievable from the stream even though the reported count
is 0. -/
theorem C10_xsgetn_error_loses_putback (p : Port) (osRead : Nat → ReadResult)
    (n : Int)
    (hfd : p.mFileDescriptor ≠ -1)
    (hpb : p.mPutbackAvailable = true)
    (hn : 1 < n)
    (herr : osRead (n - 1).toNat = ReadResult.err) :
    (xsgetn p osRead n).1 = 0 ∧
    (xsgetn p osRead n).2.1.mPutbackAvailable = false ∧
    (xsgetn p osRead n).2.2.1 = [p.mPutbackChar] := by
  have hn' : ¬ n ≤ 0 := by omega
  have hsub : (n - 1).toNat = n.toNat - 1 := by omega
  rw [hsub] at herr
  simp [xsgetn, hfd, hpb, hn, hn', herr]

/-- Witness for C10 at a concrete port with putback byte 42 pending,
`n = 2` and a failing OS read. -/
theorem C10_xsgetn_error_loses_putback_witness :
    (xsgetn { mFileDescriptor := 3, mPutbackChar := 42, mPutbackAvailable := true }
        (fun _ => ReadResult.err) 2).1 = 0 ∧
    (xsgetn { mFileDescriptor := 3, mPutbackChar := 42, mPutbackAvailable := true }
        (fun _ => ReadResult.err) 2).2.1.mPutbackAvailable = false ∧
    (xsgetn { mFileDescriptor := 3, mPutbackChar := 42, mPutbackAvailable := true }
        (fun _ => ReadResult.err) 2).2.2.1 = [42] :=
  C10_xsgetn_error_loses_putback
    { mFileDescriptor := 3, mPutbackChar := 42, mPutbackAvailable := true }
    (fun _ => ReadResult.err) 2 (by decide) rfl (by decide) rfl

/-- C2 counterexample: on an open port with putback byte 42 pending and
`n = 2`, when the underlying OS read reports end-of-file (a successful
read delivering no bytes), `xsgetn` returns 1 — not 0 as the claim
states for the error/end-of-file case. -/
theorem C2_xsgetn_counterexample :
    (xsgetn { mFileDescriptor := 3, mPutbackChar := 42, mPutbackAvailable := true }
        (fun _ => ReadResult.ok []) 2).1 = 1 ∧
    ((xsgetn { mFileDescriptor := 3, mPutbackChar := 42, mPutbackAvailable := true }
        (fun _ => ReadResult.ok []) 2).1 = 0 → False) := by
  exact ⟨rfl, by decide⟩

/-- C2 amended: `xsgetn` on an open port with `n > 0` places a pending
putback byte at the head of the target and clears the flag, requesting
`n - 1` further bytes from the OS read call (none when `n = 1`);
otherwise it requests `n` bytes directly.  The return value equals the
number of bytes delivered, except that when the read reports an error it
returns 0 even if the pending putback byte had already been placed in
the target; on end-of-file from the read it returns 1 when a putback
byte was placed and 0 otherwise.  The result is never negative, and with
`n ≤ 0` or a closed port it is 0 with nothing delivered or requested. -/
theorem C2_xsgetn_spec :
    (∀ (p : Port) (osRead : Nat → ReadResult) (n : Int),
      p.mFileDescriptor = -1 ∨ n ≤ 0 → xsgetn p osRead n = (0, p, [], [])) ∧
    (∀ (p : Port) (osRead : Nat → ReadResult),
      p.mFileDescriptor ≠ -1 → p.mPutbackAvailable = true →
      xsgetn p osRead 1 =
        (1, { p with mPutbackAvailable := false }, [p.mPutbackChar], [])) ∧
    (∀ (p : Port) (osRead : Nat → ReadResult) (n : Int) (bs : List Nat),
      p.mFileDescriptor ≠ -1 → p.mPutbackAvailable = true → 1 < n →
      osRead (n - 1).toNat = ReadResult.ok bs →
      xsgetn p osRead n =
        ((1 : Int) + bs.length, { p with mPutbackAvailable := false },
         p.mPutbackChar :: bs, [(n - 1).toNat])) ∧
    (∀ (p : Port) (osRead : Nat → ReadResult) (n : Int),
      p.mFileDescriptor ≠ -1 → p.mPutbackAvailable = true → 1 < n →
      osRead (n - 1).toNat = ReadResult.err →
      xsgetn p osRead n =
        (0, { p with mPutbackAvailable := false },
         [p.mPutbackChar], [(n - 1).toNat])) ∧
    (∀ (p : Port) (osRead : Nat → ReadResult) (n : Int) (bs : List Nat),
      p.mFileDescriptor ≠ -1 → p.mPutbackAvailable = false → 0 < n →
      osRead n.toNat = ReadResult.ok bs →
      xsgetn p osRead n =
        (if bs.length = 0 then 0 else (bs.length : Int), p, bs, [n.toNat])) ∧
    (∀ (p : Port) (osRead : Nat → ReadResult) (n : Int),
      p.mFileDescriptor ≠ -1 → p.mPutbackAvailable = false → 0 < n →
      osRead n.toNat = ReadResult.err →
      xsgetn p osRead n = (0, p, [], [n.toNat])) ∧
    (∀ (p : Port) (osRead : Nat → ReadResult) (n : Int),
      0 ≤ (xsgetn p osRead n).1) := by
  refine ⟨?_, ?_, ?_, ?_, ?_, ?_, ?_⟩
  · intro p osRead n h
    rcases h with h | h <;> simp [xsgetn, h]
  · intro p osRead hfd hpb
    simp [xsgetn, hfd, hpb]
  · intro p osRead n bs hfd hpb hn hok
    have hn' : ¬ n ≤ 0 := by omega
    have hsub : (n - 1).toNat = n.toNat - 1 := by omega
    rw [hsub] at hok
    simp [xsgetn, hfd, hpb, hn, hn', hok, hsub]
  · intro p osRead n hfd hpb hn herr
    have hn' : ¬ n ≤ 0 := by omega
    have hsub : (n - 1).toNat = n.toNat - 1 := by omega
    rw [hsub] at herr
    simp [xsgetn, hfd, hpb, hn, hn', herr, hsub]
  · intro p osRead n bs hfd hpb hn hok
    have hn' : ¬ n ≤ 0 := by omega
    simp [xsgetn, hfd, hpb, hn', hok]
  · intro p osRead n hfd hpb hn herr
    have hn' : ¬ n ≤ 0 := by omega
    simp [xsgetn, hfd, hpb, hn', herr]
  · intro p osRead n
    unfold xsgetn
    split
    · simp
    · split
      · split
        · rcases h : osRead (n - 1).toNat with _ | bs <;> simp [h]
          omega
        · simp
      · rcases h : osRead n.toNat with _ | bs <;> simp [h]
        split <;> simp

/-- Witness for C2 at concrete inputs: the `n = 1` putback branch and
the nonnegativity of the result. -/
theorem C2_xsgetn_spec_witness :
    xsgetn { mFileDescriptor := 3, mPutbackChar := 42, mPutbackAvailable := true }
        (fun _ => ReadResult.err) 1 =
      (1, { mFileDescriptor := 3, mPutbackChar := 42, mPutbackAvailable := false },
       [42], []) ∧
    0 ≤ (xsgetn { mFileDescriptor := 3, mPutbackChar := 42, mPutbackAvailable := true }
        (fun _ => ReadResult.err) 5).1 :=
  ⟨C2_xsgetn_spec.2.1
      { mFileDescriptor := 3, mPutbackChar := 42, mPutbackAvailable := true }
      (fun _ => ReadResult.err) (by decide) rfl,
   C2_xsgetn_spec.2.2.2.2.2.2
      { mFileDescriptor := 3, mPutbackChar := 42, mPutbackAvailable := true }
      (fun _ => ReadResult.err) 5⟩

/-- Sample attribute block used for concrete evaluations: 19200 baud,
8-bit characters, one stop bit, no parity, no flow control, `VMIN` 1,
`VTIME` 0, flow characters `^Q`/`^S`. -/
def sampleTermios : Termios :=
  { ispeed := 14, ospeed := 14, csize := 0x30, istrip := false,
    ixon := false, ixoff := false, crtscts := false, cstopb := false,
    parenb := false, parodd := false, vmin := 1, vtime := 0,
    vstart := 0x11, vstop := 0x13 }

/-- C3 counterexample: `SetVMin` does not return a value re-read from
the device.  Against a device that stores `VMIN` as 0 regardless of the
request (a legal `tcsetattr` outcome), `SetVMin 5` on an open port
succeeds returning 5 — the requested value — while `GetVMin` on the
post-state returns 0, so the setter's successful result differs from the
corresponding getter's result on the post-state. -/
theorem C3_setvmin_counterexample :
    (SetVMin 3 sampleTermios (fun t => some { t with vmin := 0 }) 5).1 = 5 ∧
    GetVMin 3 (SetVMin 3 sampleTermios (fun t => some { t with vmin := 0 }) 5).2 = 0 ∧
    ((5 : Int) = 0 → False) :=
  ⟨rfl, rfl, by decide⟩

/-- C3 amended: the baud-rate, character-size, stop-bits, parity and
flow-control setters on an open port return the value obtained by
re-reading the device attributes after the write-back (the getter on the
post-state), for every requested value and every device acceptance
behaviour; `SetVMin` and `SetVTime`, by contrast, return the requested
value itself after a successful write-back, without re-reading. -/
theorem C3_setters_reread :
    (∀ (fd : Int) (t : Termios) (accept : Termios → Option Termios)
        (br : BaudRate) (t' : Termios),
      fd ≠ -1 → br ≠ BaudRate.BAUD_INVALID →
      accept { t with ispeed := br.toSpeed, ospeed := br.toSpeed } = some t' →
      SetBaudRate fd t accept br = (GetBaudRate fd t', t')) ∧
    (∀ (fd : Int) (t : Termios) (accept : Termios → Option Termios)
        (cs : CharSize) (t' : Termios),
      fd ≠ -1 → cs ≠ CharSize.CHAR_SIZE_INVALID →
      accept (applyCharSize t cs) = some t' →
      SetCharSize fd t accept cs = (GetCharSize fd t', t')) ∧
    (∀ (fd : Int) (t : Termios) (accept : Termios → Option Termios)
        (sb : Int) (t' : Termios),
      fd ≠ -1 → (sb = 1 ∨ sb = 2) →
      accept { t with cstopb := decide (sb = 2) } = some t' →
      SetNumOfStopBits fd t accept sb = (GetNumOfStopBits fd t', t')) ∧
    (∀ (fd : Int) (t : Termios) (accept : Termios → Option Termios)
        (pr : ParityEnum) (t' : Termios),
      fd ≠ -1 → pr ≠ ParityEnum.PARITY_INVALID →
      accept (applyParity t pr) = some t' →
      SetParity fd t accept pr = (GetParity fd t', t')) ∧
    (∀ (fd : Int) (t : Termios) (accept : Termios → Option Termios)
        (fc : FlowControlEnum) (t' : Termios),
      fd ≠ -1 →
      accept (applyFlowControl t fc) = some t' →
      SetFlowControl fd t true accept fc = (GetFlowControl fd t', t')) ∧
    (∀ (fd : Int) (t : Termios) (accept : Termios → Option Termios)
        (v : Int) (t' : Termios),
      fd ≠ -1 → 0 ≤ v → v ≤ 255 →
      accept { t with vmin := v.toNat } = some t' →
      SetVMin fd t accept v = (v, t')) ∧
    (∀ (fd : Int) (t : Termios) (accept : Termios → Option Termios)
        (v : Int) (t' : Termios),
      fd ≠ -1 → 0 ≤ v → v ≤ 255 →
      accept { t with vtime := v.toNat } = some t' →
      SetVTime fd t accept v = (v, t')) := by
  refine ⟨?_, ?_, ?_, ?_, ?_, ?_, ?_⟩
  · intro fd t accept br t' hfd hbr hacc
    simp [SetBaudRate, hfd, hbr, hacc]
  · intro fd t accept cs t' hfd hcs hacc
    simp [SetCharSize, hfd, hcs, hacc]
  · intro fd t accept sb t' hfd hsb hacc
    rcases hsb with h | h <;> subst h <;>
      simp at hacc <;> simp [SetNumOfStopBits, hfd, hacc]
  · intro fd t accept pr t' hfd hpr hacc
    simp [SetParity, hfd, hpr, hacc]
  · intro fd t accept fc t' hfd hacc
    simp [SetFlowControl, hfd, hacc]
  · intro fd t accept v t' hfd h0 h255 hacc
    have h : ¬ (v < 0 ∨ 255 < v) := by omega
    simp [SetVMin, hfd, h, hacc]
  · intro fd t accept v t' hfd h0 h255 hacc
    have h : ¬ (v < 0 ∨ 255 < v) := by omega
    simp [SetVTime, hfd, h, hacc]

/-- Witness for C3 (amended) at concrete inputs, with the identity
device: setting 9600 baud returns the getter's decoding of the stored
speeds, and `SetVMin 5` returns 5. -/
theorem C3_setters_reread_witness :
    SetBaudRate 3 sampleTermios some BaudRate.BAUD_9600 =
      (BaudRate.BAUD_9600, { sampleTermios with ispeed := 13, ospeed := 13 }) ∧
    SetVMin 3 sampleTermios some 5 = (5, { sampleTermios with vmin := 5 }) := by
  constructor
  · have h := C3_setters_reread.1 3 sampleTermios some BaudRate.BAUD_9600
      { sampleTermios with ispeed := 13, ospeed := 13 }
      (by decide) (by decide) rfl
    rw [h]
    decide
  · exact C3_setters_reread.2.2.2.2.2.1 3 sampleTermios some 5
      { sampleTermios with vmin := 5 } (by decide) (by decide) (by decide) rfl

/-- C4: `GetFlowControl` on an open port classifies the attribute
snapshot exactly as claimed: Soft iff both `IXON` and `IXOFF` are set
with `VSTART = ^Q` (0x11) and `VSTOP = ^S` (0x13); Hard iff neither XON
flag is set and `CRTSCTS` is; None iff neither XON flag nor `CRTSCTS`
is set; and every remaining combination — some XON flag set but not the
full soft configuration — yields Invalid. -/
theorem C4_flowcontrol_classification (fd : Int) (t : Termios)
    (hfd : fd ≠ -1) :
    (GetFlowControl fd t = FlowControlEnum.FLOW_CONTROL_SOFT ↔
      (t.ixon = true ∧ t.ixoff = true ∧ t.vstart = 0x11 ∧ t.vstop = 0x13)) ∧
    (GetFlowControl fd t = FlowControlEnum.FLOW_CONTROL_HARD ↔
      (t.ixon = false ∧ t.ixoff = false ∧ t.crtscts = true)) ∧
    (GetFlowControl fd t = FlowControlEnum.FLOW_CONTROL_NONE ↔
      (t.ixon = false ∧ t.ixoff = false ∧ t.crtscts = false)) ∧
    (GetFlowControl fd t = FlowControlEnum.FLOW_CONTROL_INVALID ↔
      ((t.ixon = true ∨ t.ixoff = true) ∧
       ¬ (t.ixon = true ∧ t.ixoff = true ∧ t.vstart = 0x11 ∧ t.vstop = 0x13))) := by
  cases hx : t.ixon <;> cases hy : t.ixoff <;> cases hc : t.crtscts <;>
    by_cases hv1 : t.vstart = 0x11 <;> by_cases hv2 : t.vstop = 0x13 <;>
      simp [GetFlowControl, CTRL_Q, CTRL_S, hfd, hx, hy, hc, hv1, hv2]

/-- Witness for C4 at the concrete soft-flow-control snapshot. -/
theorem C4_flowcontrol_classification_witness :
    GetFlowControl 3 { sampleTermios with ixon := true, ixoff := true } =
      FlowControlEnum.FLOW_CONTROL_SOFT :=
  (C4_flowcontrol_classification 3 { sampleTermios with ixon := true, ixoff := true }
      (by decide)).1.mpr (by decide)

/-- C5: `SetCharSize` on an open port.  For every supported size the
attribute block written back has its `CSIZE` field equal to exactly the
requested size (all size bits cleared, then set) and has `ISTRIP`
cleared exactly when the requested size is 8 bits and set for every
smaller size; for the invalid sentinel it returns the invalid sentinel
with the attributes untouched, regardless of the device's acceptance
behaviour (nothing is written back). -/
theorem C5_charsize_istrip :
    (∀ (t : Termios) (cs : CharSize), cs ≠ CharSize.CHAR_SIZE_INVALID →
      (applyCharSize t cs).csize = cs.val ∧
      ((applyCharSize t cs).istrip = false ↔ cs = CharSize.CHAR_SIZE_8) ∧
      ((applyCharSize t cs).istrip = true ↔ cs ≠ CharSize.CHAR_SIZE_8)) ∧
    (∀ (fd : Int) (t : Termios) (accept : Termios → Option Termios),
      fd ≠ -1 →
      SetCharSize fd t accept CharSize.CHAR_SIZE_INVALID =
        (CharSize.CHAR_SIZE_INVALID, t)) := by
  constructor
  · intro t cs hcs
    cases cs <;> simp [applyCharSize, CharSize.val] at hcs ⊢
  · intro fd t accept hfd
    simp [SetCharSize, hfd]

/-- Witness for C5 at concrete sizes: 7-bit characters set `ISTRIP` and
store `CS7`, the invalid sentinel leaves a concrete state untouched. -/
theorem C5_charsize_istrip_witness :
    (applyCharSize sampleTermios CharSize.CHAR_SIZE_7).csize = 0x20 ∧
    (applyCharSize sampleTermios CharSize.CHAR_SIZE_7).istrip = true ∧
    SetCharSize 3 sampleTermios some CharSize.CHAR_SIZE_INVALID =
      (CharSize.CHAR_SIZE_INVALID, sampleTermios) := by
  have h1 := C5_charsize_istrip.1 sampleTermios CharSize.CHAR_SIZE_7 (by decide)
  have h2 := C5_charsize_istrip.2 3 sampleTermios some (by decide)
  exact ⟨h1.1, h1.2.2.mpr (by decide), h2⟩

/-- C6 counterexample: an attempted `close` on an open port whose
`::close` system call fails returns the failure value but leaves the
descriptor in place, so `IsOpen()` is still true afterwards — the claim
that `IsOpen()` is false after any successful-or-attempted Close is
refuted. -/
theorem C6_close_counterexample :
    close { mFileDescriptor := 3, mPutbackChar := 0, mPutbackAvailable := false }
        false =
      (false, { mFileDescriptor := 3, mPutbackChar := 0, mPutbackAvailable := false }) ∧
    is_open
      (close { mFileDescriptor := 3, mPutbackChar := 0, mPutbackAvailable := false }
        false).2 = true :=
  ⟨rfl, rfl⟩

/-- C6 amended: `close` on a port that is not open fails and changes
nothing; after a successful `open`, `is_open` is true; after a `close`
whose OS-level close succeeds, `is_open` is false and a second `close`
fails with the state unchanged.  (When the OS-level close itself fails,
the descriptor is left in place and `is_open` remains true.) -/
theorem C6_close_idempotence :
    (∀ (p : Port) (osCloseOk : Bool),
      is_open p = false → close p osCloseOk = (false, p)) ∧
    (∀ (p : Port) (modeValid : Bool) (osOpenFd : Option Nat) (initOk : Bool),
      (openPort p modeValid osOpenFd initOk).1 = true →
      is_open (openPort p modeValid osOpenFd initOk).2 = true) ∧
    (∀ p : Port, is_open p = true →
      close p true = (true, { p with mFileDescriptor := -1 }) ∧
      is_open { p with mFileDescriptor := -1 } = false ∧
      (∀ osCloseOk : Bool,
        close { p with mFileDescriptor := -1 } osCloseOk =
          (false, { p with mFileDescriptor := -1 }))) := by
  refine ⟨?_, ?_, ?_⟩
  · intro p osCloseOk h
    simp [close, h]
  · intro p modeValid osOpenFd initOk h
    unfold openPort at h ⊢
    by_cases hopen : is_open p = true
    · simp [hopen] at h
    · have hopen' : is_open p = false := by
        cases hval : is_open p
        · rfl
        · exact absurd hval hopen
      cases modeValid
      · simp [hopen'] at h
      · rcases osOpenFd with _ | fd
        · simp [hopen'] at h
        · have hfd : p.mFileDescriptor = -1 := by
            simpa [is_open] using hopen'
          cases initOk
          · simp [hopen'] at h
          · simp [is_open, hfd]
  · intro p h
    have hfd : p.mFileDescriptor ≠ -1 := by
      simpa [is_open] using h
    refine ⟨by simp [close, h], by simp [is_open], ?_⟩
    intro osCloseOk
    simp [close, is_open]

/-- Witness for C6 (amended) at concrete ports: a close on a closed
port fails, a successful open yields an open port, and a successful
close closes the port with the second close failing. -/
theorem C6_close_idempotence_witness :
    close { mFileDescriptor := -1, mPutbackChar := 0, mPutbackAvailable := false }
        true =
      (false, { mFileDescriptor := -1, mPutbackChar := 0, mPutbackAvailable := false }) ∧
    close { mFileDescriptor := 3, mPutbackChar := 0, mPutbackAvailable := false }
        true =
      (true, { mFileDescriptor := -1, mPutbackChar := 0, mPutbackAvailable := false }) ∧
    close { mFileDescriptor := -1, mPutbackChar := 0, mPutbackAvailable := false }
        false =
      (false, { mFileDescriptor := -1, mPutbackChar := 0, mPutbackAvailable := false }) := by
  have h1 := C6_close_idempotence.1
    { mFileDescriptor := -1, mPutbackChar := 0, mPutbackAvailable := false } true rfl
  have h3 := C6_close_idempotence.2.2
    { mFileDescriptor := 3, mPutbackChar := 0, mPutbackAvailable := false } rfl
  exact ⟨h1, h3.1, h3.2.2 false⟩

/-- C8 counterexample: starting from a closed buffer, an `open` in which
the OS descriptor (3) is obtained but `InitializeSerialPort` fails
returns the failure value, yet `IsOpen()` afterwards returns true — not
false as the claim states — because `is_open` merely tests the stored
descriptor, which was left set. -/
theorem C8_partial_open_counterexample :
    (openPort { mFileDescriptor := -1, mPutbackChar := 0, mPutbackAvailable := false }
        true (some 3) false).1 = false ∧
    is_open
      (openPort { mFileDescriptor := -1, mPutbackChar := 0, mPutbackAvailable := false }
        true (some 3) false).2 = true :=
  ⟨rfl, rfl⟩

/-- C8 amended: for every `open` call on a closed buffer with a valid
mode in which the OS descriptor is successfully obtained but the
subsequent initialization fails, `open` reports failure and the
descriptor is left stored in the handle, so `IsOpen()` returns true
after such a failed `open`. -/
theorem C8_partial_open_state (p : Port) (fd : Nat)
    (h : is_open p = false) :
    openPort p true (some fd) false =
      (false, { p with mFileDescriptor := (fd : Int) }) ∧
    is_open { p with mFileDescriptor := (fd : Int) } = true := by
  constructor
  · simp [openPort, h]
  · simp [is_open]

/-- Witness for C8 (amended) at the concrete closed buffer and OS
descriptor 3. -/
theorem C8_partial_open_state_witness :
    openPort { mFileDescriptor := -1, mPutbackChar := 0, mPutbackAvailable := false }
        true (some 3) false =
      (false, { mFileDescriptor := 3, mPutbackChar := 0, mPutbackAvailable := false }) ∧
    is_open { mFileDescriptor := (3 : Int), mPutbackChar := 0, mPutbackAvailable := false } =
      true :=
  C8_partial_open_state
    { mFileDescriptor := -1, mPutbackChar := 0, mPutbackAvailable := false } 3 rfl

/-- C9 counterexample: on an open port with no putback byte pending,
when the non-blocking probe read obtains the byte 65 but the `fcntl`
call restoring the original descriptor flags fails, `showmanyc` returns
-1 — yet the putback state has changed: the byte is stored and the
pending flag is set.  This refutes the claim that the putback state is
unchanged whenever `showmanyc` returns 0 or -1. -/
theorem C9_showmanyc_counterexample :
    showmanyc { mFileDescriptor := 3, mPutbackChar := 0, mPutbackAvailable := false }
        true (some 65) false =
      (-1, { mFileDescriptor := 3, mPutbackChar := 65, mPutbackAvailable := true }) :=
  rfl

/-- C9 amended: `showmanyc` never discards data.  On an open port with
no putback byte pending, whenever the non-blocking probe read obtains a
byte, that byte is stored in the putback cell and the pending flag
becomes true — so a subsequent `underflow` delivers exactly that byte —
and 1 is returned when restoring the descriptor flags succeeds, -1 when
it fails (with the byte still stored, not discarded).  When the probe
read obtains nothing, or the initial flag switch fails, or a putback
byte was already pending, the state is unchanged, with result 0, -1 or 1
respectively. -/
theorem C9_showmanyc_stores_probe (p : Port)
    (hfd : p.mFileDescriptor ≠ -1) :
    (∀ (b : Nat) (restoreOk : Bool), p.mPutbackAvailable = false →
      showmanyc p true (some b) restoreOk =
        ((if restoreOk then 1 else -1),
         { p with mPutbackChar := b, mPutbackAvailable := true }) ∧
      (∀ osRead1 : Option Nat,
        underflow { p with mPutbackChar := b, mPutbackAvailable := true } osRead1 =
          ((b : Int), { p with mPutbackChar := b, mPutbackAvailable := true }))) ∧
    (∀ restoreOk : Bool, p.mPutbackAvailable = false →
      showmanyc p true none restoreOk = ((if restoreOk then 0 else -1), p)) ∧
    (∀ (osRead1 : Option Nat) (restoreOk : Bool), p.mPutbackAvailable = false →
      showmanyc p false osRead1 restoreOk = (-1, p)) ∧
    (∀ (setOk : Bool) (osRead1 : Option Nat) (restoreOk : Bool),
      p.mPutbackAvailable = true →
      showmanyc p setOk osRead1 restoreOk = (1, p)) := by
  refine ⟨?_, ?_, ?_, ?_⟩
  · intro b restoreOk hpb
    refine ⟨?_, ?_⟩
    · cases restoreOk <;> simp [showmanyc, hfd, hpb]
    · intro osRead1
      simp [underflow, hfd]
  · intro restoreOk hpb
    cases restoreOk <;> simp [showmanyc, hfd, hpb]
  · intro osRead1 restoreOk hpb
    simp [showmanyc, hfd, hpb]
  · intro setOk osRead1 restoreOk hpb
    simp [showmanyc, hfd, hpb]

/-- Witness for C9 (amended) at a concrete open port: a successful probe
obtaining byte 65 stores it, returns 1, and a subsequent `underflow`
delivers 65. -/
theorem C9_showmanyc_stores_probe_witness :
    showmanyc { mFileDescriptor := 3, mPutbackChar := 0, mPutbackAvailable := false }
        true (some 65) true =
      (1, { mFileDescriptor := 3, mPutbackChar := 65, mPutbackAvailable := true }) ∧
    underflow { mFileDescriptor := 3, mPutbackChar := 65, mPutbackAvailable := true }
        none =
      (65, { mFileDescriptor := 3, mPutbackChar := 65, mPutbackAvailable := true }) := by
  have h := (C9_showmanyc_stores_probe
    { mFileDescriptor := 3, mPutbackChar := 0, mPutbackAvailable := false }
    (by decide)).1 65 true rfl
  exact ⟨h.1, h.2 none⟩

end LibSerial
